import Mathlib

/-!
Verification development for the `update` package of furushchev/circleci-cli.

The Go source is shallowly embedded: pure functions become Lean functions,
the two side-effecting discovery strategies (`checkFromSource`, which talks
to the GitHub API through a selfupdate handle, and `checkFromHomebrew`,
which shells out to `brew outdated --json=v2`) are parameterised by the
outcome of their external effect, and every fallible operation returns
`Except String`.

The `Semver` namespace embeds the relevant parts of the third-party
dependency github.com/blang/semver (v3), which the update package uses for
`semver.Parse`, `Version.String`, `Version.Compare` and `Version.Equals`.
Go's `uint64` values are modelled as `Nat` with the `< 2 ^ 64` overflow
check performed exactly where `strconv.ParseUint` performs it.
-/

deriving instance DecidableEq for Except

namespace Semver

/-- Embeds blang/semver `PRVersion`: one dot-separated pre-release
identifier, either numeric (`IsNum = true`, value in `VersionNum`) or
alphanumeric (`IsNum = false`, text in `VersionStr`). -/
structure PRVersion where
  VersionStr : String
  VersionNum : Nat
  IsNum : Bool
deriving DecidableEq

/-- Embeds blang/semver `Version`. -/
structure Version where
  Major : Nat
  Minor : Nat
  Patch : Nat
  Pre : List PRVersion
  Build : List String
deriving DecidableEq

/-- The character set `numbers` of blang/semver. -/
def numbers : List Char := "0123456789".data

/-- The character set `alphas` of blang/semver (note: it contains the
hyphen). -/
def alphas : List Char := "abcdefghijklmnopqrstuvwxyzABCDEFGHIJKLMNOPQRSTUVWXYZ-".data

/-- The character set `alphanum` of blang/semver. -/
def alphanum : List Char := alphas ++ numbers

/-- Embeds blang/semver `containsOnly(s, set)`. -/
def containsOnly (cs : List Char) (set : List Char) : Bool :=
  cs.all (fun c => set.contains c)

/-- Embeds blang/semver `hasLeadingZeroes(s)`:
`len(s) > 1 && strings.HasPrefix(s, "0")`. -/
def hasLeadingZeroes (cs : List Char) : Bool :=
  decide (cs.length > 1) && (match cs with | [] => false | c :: _ => c = '0')

/-- Embeds `strconv.ParseUint(s, 10, 64)` restricted to the call sites in
blang/semver: `none` on the empty string, a non-digit, or a value that
overflows `uint64`. -/
def parseUintDec (cs : List Char) : Option Nat :=
  if cs.isEmpty then none
  else if containsOnly cs numbers then
    let n := cs.foldl (fun a c => a * 10 + (c.toNat - 48)) 0
    if n < 2 ^ 64 then some n else none
  else none

/-- Splits off the part of `cs` before the first occurrence of `sep` and
the part after it; `none` when `sep` does not occur. Used to embed both
`strings.SplitN` and `strings.IndexRune` plus slicing. -/
def splitFirst (sep : Char) : List Char → Option (List Char × List Char)
  | [] => none
  | c :: cs =>
    if c = sep then some ([], cs)
    else
      match splitFirst sep cs with
      | none => none
      | some (l, r) => some (c :: l, r)

/-- Embeds `strings.SplitN(s, sep, n)` for `n ≥ 1` (a single-rune
separator). -/
def splitCharN (sep : Char) : Nat → List Char → List (List Char)
  | 0, _ => []
  | 1, cs => [cs]
  | Nat.succ (Nat.succ m), cs =>
    match splitFirst sep cs with
    | none => [cs]
    | some (l, r) => l :: splitCharN sep (Nat.succ m) r

/-- Embeds `strings.Split(s, sep)` (no limit, single-rune separator). -/
def splitChar (sep : Char) (cs : List Char) : List (List Char) :=
  cs.foldr
    (fun c acc =>
      if c = sep then [] :: acc
      else
        match acc with
        | [] => [[c]]
        | a :: rest => (c :: a) :: rest)
    [[]]

/-- Embeds blang/semver `NewPRVersion(s)`. -/
def NewPRVersion (cs : List Char) : Except String PRVersion :=
  if cs.isEmpty then Except.error "Prerelease is empty"
  else if containsOnly cs numbers then
    if hasLeadingZeroes cs then
      Except.error ("Numeric PreRelease version must not contain leading zeroes " ++ String.mk cs)
    else
      match parseUintDec cs with
      | none => Except.error ("Error parsing numeric prerelease " ++ String.mk cs)
      | some num => Except.ok { VersionStr := "", VersionNum := num, IsNum := true }
  else if containsOnly cs alphanum then
    Except.ok { VersionStr := String.mk cs, VersionNum := 0, IsNum := false }
  else
    Except.error ("Invalid character(s) found in prerelease " ++ String.mk cs)

/-- Parses the list of pre-release identifiers in order, stopping at the
first error, as the `for` loop over `prerelease` in blang/semver `Parse`. -/
def parsePreList : List (List Char) → Except String (List PRVersion)
  | [] => Except.ok []
  | p :: ps =>
    match NewPRVersion p with
    | Except.error e => Except.error e
    | Except.ok pr =>
      match parsePreList ps with
      | Except.error e => Except.error e
      | Except.ok prs => Except.ok (pr :: prs)

/-- Checks the list of build identifiers in order, as the `for` loop over
`build` in blang/semver `Parse`. -/
def parseBuildList : List (List Char) → Except String (List String)
  | [] => Except.ok []
  | b :: bs =>
    if b.isEmpty then Except.error "Build meta data is empty"
    else if !containsOnly b alphanum then
      Except.error ("Invalid character(s) found in build meta data " ++ String.mk b)
    else
      match parseBuildList bs with
      | Except.error e => Except.error e
      | Except.ok rest => Except.ok (String.mk b :: rest)

/-- Embeds blang/semver `Parse(s)`. -/
def Parse (s : String) : Except String Version :=
  let cs := s.data
  if cs.isEmpty then Except.error "Version string empty"
  else
    match splitCharN '.' 3 cs with
    | [p0, p1, p2] =>
      if !containsOnly p0 numbers then
        Except.error ("Invalid character(s) found in major number " ++ String.mk p0)
      else if hasLeadingZeroes p0 then
        Except.error ("Major number must not contain leading zeroes " ++ String.mk p0)
      else
        match parseUintDec p0 with
        | none => Except.error ("Error parsing major number " ++ String.mk p0)
        | some major =>
          if !containsOnly p1 numbers then
            Except.error ("Invalid character(s) found in minor number " ++ String.mk p1)
          else if hasLeadingZeroes p1 then
            Except.error ("Minor number must not contain leading zeroes " ++ String.mk p1)
          else
            match parseUintDec p1 with
            | none => Except.error ("Error parsing minor number " ++ String.mk p1)
            | some minor =>
              let buildSplit := splitFirst '+' p2
              let patchStr1 := match buildSplit with | none => p2 | some (l, _) => l
              let build := match buildSplit with | none => [] | some (_, r) => splitChar '.' r
              let preSplit := splitFirst '-' patchStr1
              let patchStr := match preSplit with | none => patchStr1 | some (l, _) => l
              let pre := match preSplit with | none => [] | some (_, r) => splitChar '.' r
              if !containsOnly patchStr numbers then
                Except.error ("Invalid character(s) found in patch number " ++ String.mk patchStr)
              else if hasLeadingZeroes patchStr then
                Except.error ("Patch number must not contain leading zeroes " ++ String.mk patchStr)
              else
                match parseUintDec patchStr with
                | none => Except.error ("Error parsing patch number " ++ String.mk patchStr)
                | some patch =>
                  match parsePreList pre with
                  | Except.error e => Except.error e
                  | Except.ok preList =>
                    match parseBuildList build with
                    | Except.error e => Except.error e
                    | Except.ok buildList =>
                      Except.ok { Major := major, Minor := minor, Patch := patch,
                                  Pre := preList, Build := buildList }
    | _ => Except.error "No Major.Minor.Patch elements found"

/-- Embeds blang/semver `PRVersion.String()`. -/
def prString (p : PRVersion) : String :=
  if p.IsNum then toString p.VersionNum else p.VersionStr

/-- Embeds blang/semver `Version.String()`. -/
def versionString (v : Version) : String :=
  toString v.Major ++ "." ++ toString v.Minor ++ "." ++ toString v.Patch
  ++ (match v.Pre with
      | [] => ""
      | _ :: _ => "-" ++ String.intercalate "." (v.Pre.map prString))
  ++ (match v.Build with
      | [] => ""
      | _ :: _ => "+" ++ String.intercalate "." v.Build)

/-- Go byte-wise string ordering (`<` on strings), restricted to the ASCII
strings produced by the parser, where byte order and code-point order
coincide. -/
def charListLT : List Char → List Char → Bool
  | [], [] => false
  | [], _ :: _ => true
  | _ :: _, [] => false
  | a :: as, b :: bs =>
    if a.toNat < b.toNat then true
    else if b.toNat < a.toNat then false
    else charListLT as bs

/-- Embeds blang/semver `PRVersion.Compare`. -/
def prCompare (v o : PRVersion) : Int :=
  if v.IsNum && !o.IsNum then -1
  else if !v.IsNum && o.IsNum then 1
  else if v.IsNum && o.IsNum then
    if v.VersionNum = o.VersionNum then 0
    else if v.VersionNum > o.VersionNum then 1
    else -1
  else
    if v.VersionStr = o.VersionStr then 0
    else if charListLT o.VersionStr.data v.VersionStr.data then 1
    else -1

/-- The index-bounded loop of blang/semver `Version.Compare` over the two
pre-release lists, together with its three exit cases. -/
def preCompareList : List PRVersion → List PRVersion → Int
  | [], [] => 0
  | [], _ :: _ => -1
  | _ :: _, [] => 1
  | a :: as, b :: bs =>
    let c := prCompare a b
    if c = 0 then preCompareList as bs
    else if c = 1 then 1
    else -1

/-- Embeds blang/semver `Version.Compare`. -/
def compare (v o : Version) : Int :=
  if v.Major ≠ o.Major then (if v.Major > o.Major then 1 else -1)
  else if v.Minor ≠ o.Minor then (if v.Minor > o.Minor then 1 else -1)
  else if v.Patch ≠ o.Patch then (if v.Patch > o.Patch then 1 else -1)
  else if v.Pre.isEmpty && o.Pre.isEmpty then 0
  else if v.Pre.isEmpty && !o.Pre.isEmpty then 1
  else if !v.Pre.isEmpty && o.Pre.isEmpty then -1
  else preCompareList v.Pre o.Pre

/-- Embeds blang/semver `Version.Equals`: `v.Compare(o) == 0`. -/
def Equals (v o : Version) : Bool :=
  compare v o = 0

end Semver

/-!
Embedding of the `update` package itself (src/unnamed/part_000).
-/

/-- Embeds `selfupdate.Release` as far as the update package uses it: the
release version and the publish metadata rendered by `fmt.Sprintf`. The Go
zero value of the metadata renders as the empty string here. -/
structure Release where
  Version : Semver.Version
  PublishedAt : String
deriving DecidableEq

/-- Embeds the `Options` struct. The `updater` handle is not part of the
state: `checkFromSource` is parameterised by the outcome of the external
calls made through it. -/
structure Options where
  Current : Semver.Version
  Found : Bool
  Latest : Option Release
  PackageManager : String
  githubAPI : String
  slug : String
deriving DecidableEq

/-- Embeds the module-level `var hoursBeforeCheck = 28`. -/
def hoursBeforeCheck : Nat := 28

/-- Embeds `time.Duration.Hours()`: the duration is an integer count of
nanoseconds and `Hours()` divides it by 3.6e12. The division is exact
rational arithmetic; at the whole-hour boundaries the claims are about,
Go's float64 computation agrees with the exact value. -/
def durationHours (ns : Int) : ℚ :=
  (ns : ℚ) / 3600000000000

/-- Embeds `ShouldCheckForUpdates(upd)`: `time.Since(upd.LastUpdateCheck)`
is `now - lastUpdateCheck` in nanoseconds, and the check is
`diff.Hours() >= float64(hoursBeforeCheck)`. -/
def ShouldCheckForUpdates (nowNs lastUpdateCheckNs : Int) : Bool :=
  durationHours (nowNs - lastUpdateCheckNs) ≥ (hoursBeforeCheck : ℚ)

/-- Embeds `ParseHomebrewVersion`: `strings.Replace(s, "_", "-", 10)`, the
bounded non-overlapping replacement, specialised to the single-character
pattern; the second argument is the remaining replacement budget. -/
def replaceUnderscores : List Char → Nat → List Char
  | [], _ => []
  | c :: cs, 0 => c :: cs
  | c :: cs, Nat.succ n =>
    if c = '_' then '-' :: replaceUnderscores cs n
    else c :: replaceUnderscores cs (Nat.succ n)

/-- Embeds `ParseHomebrewVersion(homebrewVesion)`. -/
def ParseHomebrewVersion (homebrewVesion : String) : Except String Semver.Version :=
  let withRevisionAsTag := String.mk (replaceUnderscores homebrewVesion.data 10)
  match Semver.Parse withRevisionAsTag with
  | Except.error e =>
    Except.error ("failed to parse current version from " ++ homebrewVesion ++ ": " ++ e)
  | Except.ok version => Except.ok version

/-- One entry of the `formulae` array in the `brew outdated --json=v2`
document, as declared in the anonymous struct inside `HomebrewOutdated`. -/
structure Formula where
  Name : String
  InstalledVersions : List String
  CurrentVersion : String
  Pinned : Bool
  PinnedVersion : String
deriving DecidableEq

/-- Embeds the `HomebrewOutdated` struct. -/
structure HomebrewOutdated where
  Formulae : List Formula
deriving DecidableEq

/-- The `for _, o := range outdated.Formulae` loop of `checkFromHomebrew`,
threading the mutable `check` and returning the Go `(check partly updated,
err)` pair on an early `return err`. -/
def homebrewScan (check : Options) : List Formula → Options × Option String
  | [] => (check, none)
  | f :: fs =>
    if f.Name = "circleci" then
      match
        (match f.InstalledVersions with
         | [] => Except.ok check
         | iv :: _ =>
           match ParseHomebrewVersion iv with
           | Except.error e => Except.error e
           | Except.ok current => Except.ok { check with Current := current }) with
      | Except.error e => (check, some e)
      | Except.ok check1 =>
        match ParseHomebrewVersion f.CurrentVersion with
        | Except.error e => (check1, some e)
        | Except.ok latest =>
          homebrewScan
            { check1 with Latest := some { Version := latest, PublishedAt := "" }, Found := true }
            fs
    else homebrewScan check fs

/-- Embeds `checkFromHomebrew(check)`. The external effect — looking up
`brew`, running `brew outdated --json=v2` and unmarshalling its output —
is summarised by `env`: an error (binary missing, non-zero exit, or
malformed JSON, each already wrapped with its contextual message) or the
parsed document. -/
def checkFromHomebrew (env : Except String HomebrewOutdated) (check : Options) :
    Options × Option String :=
  match env with
  | Except.error e => (check, some e)
  | Except.ok outdated => homebrewScan check outdated.Formulae

/-- The outcome of `updater.DetectLatest(slug)`: the release (possibly
nil), the found flag, and the error (possibly nil). -/
structure DetectOutcome where
  latest : Option Release
  found : Bool
  err : Option String
deriving DecidableEq

/-- The user-facing guidance wrapped around a `DetectLatest` failure in
`latestRelease`. -/
def rateLimitGuidance : String :=
  "Failed to query the GitHub API for updates. This is most likely due to GitHub rate-limiting on unauthenticated requests. To have the circleci-cli make authenticated requests please: 1. Generate a token at https://github.com/settings/tokens 2. Set the token by either adding it to your ~/.gitconfig or setting the GITHUB_TOKEN environment variable."

/-- Embeds `latestRelease(opts)`: stores the detector result on the
options, then wraps the detector error if there is one. -/
def latestRelease (det : DetectOutcome) (opts : Options) : Options × Option String :=
  let opts1 := { opts with Latest := det.latest, Found := det.found }
  match det.err with
  | some e => (opts1, some (rateLimitGuidance ++ ": " ++ e))
  | none => (opts1, none)

/-- Embeds `checkFromSource(check)`. `newUpdaterErr` is the outcome of
`selfupdate.NewUpdater` (an error or success), `det` the outcome of the
`DetectLatest` call made through the updater handle. -/
def checkFromSource (newUpdaterErr : Option String) (det : DetectOutcome) (check : Options) :
    Options × Option String :=
  match newUpdaterErr with
  | some e => (check, some e)
  | none => latestRelease det check

/-- Embeds `CheckForUpdates(githubAPI, slug, current, packageManager)`.
The two discovery strategies are passed as the state transformers obtained
by partially applying `checkFromSource` / `checkFromHomebrew` to their
external outcomes; the Go `(*Options, error)` return becomes an
`Option Options × Option String` pair (`none` result on parse failure). -/
def CheckForUpdates (sourceStrategy homebrewStrategy : Options → Options × Option String)
    (githubAPI slug current packageManager : String) : Option Options × Option String :=
  match Semver.Parse current with
  | Except.error e => (none, some ("Failed to parse current version: " ++ e))
  | Except.ok currentVersion =>
    let check : Options :=
      { Current := currentVersion, Found := false, Latest := none,
        PackageManager := packageManager, githubAPI := githubAPI, slug := slug }
    match packageManager with
    | "release" => let r := sourceStrategy check; (some r.1, r.2)
    | "source" => let r := sourceStrategy check; (some r.1, r.2)
    | "homebrew" => let r := homebrewStrategy check; (some r.1, r.2)
    | _ => (some check, none)

/-- Embeds `IsLatestVersion(opts)`, including the short-circuit order of
`opts.Current.String() == "" || opts.Latest == nil`. -/
def IsLatestVersion (opts : Options) : Bool :=
  if Semver.versionString opts.Current = "" then true
  else
    match opts.Latest with
    | none => true
    | some rel => Semver.Equals rel.Version opts.Current

/-- Embeds `DebugVersion(opts)`. `opts.Latest.Version` is a nil-pointer
dereference in Go when `Latest` is nil; the embedding returns `none` for
that panic and `some` of the formatted string otherwise. -/
def DebugVersion (opts : Options) : Option String :=
  match opts.Latest with
  | none => none
  | some rel =>
    some (String.intercalate "\n"
      ["Latest version: " ++ Semver.versionString rel.Version,
       "Published: " ++ rel.PublishedAt,
       "Current Version: " ++ Semver.versionString opts.Current])

/-- Embeds `ReportVersion(opts)`, with the same treatment of the
`opts.Latest.Version` dereference as `DebugVersion`. -/
def ReportVersion (opts : Options) : Option String :=
  match opts.Latest with
  | none => none
  | some rel =>
    some (String.intercalate "\n"
      ["You are running " ++ Semver.versionString opts.Current,
       "A new release is available (" ++ Semver.versionString rel.Version ++ ")"])

/-- Embeds `HowToUpdate(opts)`. -/
def HowToUpdate (opts : Options) : String :=
  match opts.PackageManager with
  | "homebrew" => "You can update with `brew upgrade circleci`"
  | "release" => "You can update with `circleci update install`"
  | "source" =>
    String.intercalate "\n"
      ["You can visit the Github releases page for the CLI to manually download and install:",
       "https://github.com/CircleCI-Public/circleci-cli/releases"]
  | _ => ""

/-- Modelled from the spec: the variant of `ParseHomebrewVersion` that the
spec describes, rewriting only the *first* underscore separator to a
hyphen (replacement budget 1 instead of the source's 10), with the same
error wrapping. Used to compare the spec's described behaviour with the
source's. -/
def specParseHomebrewVersion (homebrewVesion : String) : Except String Semver.Version :=
  let withRevisionAsTag := String.mk (replaceUnderscores homebrewVesion.data 1)
  match Semver.Parse withRevisionAsTag with
  | Except.error e =>
    Except.error ("failed to parse current version from " ++ homebrewVesion ++ ": " ++ e)
  | Except.ok version => Except.ok version

/-!
Concrete fixtures used by counterexamples and witnesses.
-/

/-- The semantic version 0.1.1248. -/
def v1248 : Semver.Version :=
  { Major := 0, Minor := 1, Patch := 1248, Pre := [], Build := [] }

/-- The semantic version 0.1.3923. -/
def v3923 : Semver.Version :=
  { Major := 0, Minor := 1, Patch := 3923, Pre := [], Build := [] }

/-- The Go zero value of `semver.Version`, i.e. the version an
uninitialised `Options.Current` holds. -/
def zeroVersion : Semver.Version :=
  { Major := 0, Minor := 0, Patch := 0, Pre := [], Build := [] }

/-- An options record whose current version is the unset (zero) version
while a newer latest release has been discovered. -/
def optsC2 : Options :=
  { Current := zeroVersion, Found := true,
    Latest := some { Version := { Major := 1, Minor := 0, Patch := 0, Pre := [], Build := [] },
                     PublishedAt := "" },
    PackageManager := "release", githubAPI := "", slug := "" }

/-- The `brew outdated --json=v2` document of the source's own doc
comment: exactly one formula, named circleci, installed 0.1.1248, upstream
0.1.3923. -/
def docCircleci : HomebrewOutdated :=
  { Formulae := [{ Name := "circleci", InstalledVersions := ["0.1.1248"],
                   CurrentVersion := "0.1.3923", Pinned := false, PinnedVersion := "" }] }

/-- An options record as built by `CheckForUpdates` for the homebrew
channel with caller-supplied current version 1.0.0. -/
def checkC3 : Options :=
  { Current := { Major := 1, Minor := 0, Patch := 0, Pre := [], Build := [] },
    Found := false, Latest := none,
    PackageManager := "homebrew", githubAPI := "", slug := "" }

/-- A `brew outdated --json=v2` document with one formula only, not named
circleci. -/
def docOther : HomebrewOutdated :=
  { Formulae := [{ Name := "python", InstalledVersions := ["3.9.1"],
                   CurrentVersion := "3.10.0", Pinned := false, PinnedVersion := "" }] }

/-- An options record whose current version is 1.0.0 and whose discovered
latest release is 2.0.0. -/
def optsC4 : Options :=
  { Current := { Major := 1, Minor := 0, Patch := 0, Pre := [], Build := [] },
    Found := true,
    Latest := some { Version := { Major := 2, Minor := 0, Patch := 0, Pre := [], Build := [] },
                     PublishedAt := "" },
    PackageManager := "release", githubAPI := "", slug := "" }

/-- A discovery strategy that performs no state change and reports no
error; stands in for the strategy arguments in closed witnesses. -/
def inertStrategy : Options → Options × Option String :=
  fun check => (check, none)

/-- An options record with caller-supplied current version 2.1.0 and
nothing discovered yet. -/
def checkC7 : Options :=
  { Current := { Major := 2, Minor := 1, Patch := 0, Pre := [], Build := [] },
    Found := false, Latest := none,
    PackageManager := "homebrew", githubAPI := "", slug := "" }

/-!
Helper lemmas.
-/

/-- A replacement budget of zero leaves the string untouched. -/
theorem replaceUnderscores_zero (cs : List Char) : replaceUnderscores cs 0 = cs := by
  cases cs <;> rfl

/-- With no underscore in the string, any budget leaves it untouched. -/
theorem replaceUnderscores_of_count_zero (cs : List Char) (n : Nat)
    (h : cs.count '_' = 0) : replaceUnderscores cs n = cs := by
  induction cs generalizing n with
  | nil => cases n <;> rfl
  | cons c cs ih =>
    rw [List.count_cons] at h
    cases n with
    | zero => rfl
    | succ m =>
      by_cases hc : c = '_'
      · simp [hc] at h
      · simp [replaceUnderscores, hc]
        exact ih (Nat.succ m) (by simpa [hc] using h)

/-- On a string with at most one underscore, any positive replacement
budget acts like budget 1. -/
theorem replaceUnderscores_of_count_le_one (cs : List Char) (n : Nat) (hn : 1 ≤ n)
    (h : cs.count '_' ≤ 1) : replaceUnderscores cs n = replaceUnderscores cs 1 := by
  induction cs generalizing n with
  | nil => cases n with | zero => omega | succ m => rfl
  | cons c cs ih =>
    rw [List.count_cons] at h
    cases n with
    | zero => omega
    | succ m =>
      by_cases hc : c = '_'
      · have h0 : cs.count '_' = 0 := by simp [hc] at h; omega
        simp [replaceUnderscores, hc, replaceUnderscores_zero,
              replaceUnderscores_of_count_zero cs m h0]
      · simp [replaceUnderscores, hc]
        exact ih (Nat.succ m) (by omega) (by simpa [hc] using h)

/-- The rendering of a semantic version is never the empty string: it
always contains the two dots of `major.minor.patch`. -/
theorem versionString_ne_empty (v : Semver.Version) : Semver.versionString v ≠ "" := by
  intro h
  have hl := congrArg String.length h
  have hdot : ("." : String).length = 1 := rfl
  have hemp : ("" : String).length = 0 := rfl
  simp only [Semver.versionString, String.length_append, hdot, hemp] at hl
  omega

/-- The homebrew formula loop does not touch the check state when no
formula is named circleci. -/
theorem homebrewScan_no_match (fs : List Formula) (check : Options)
    (h : ∀ f ∈ fs, f.Name ≠ "circleci") : homebrewScan check fs = (check, none) := by
  induction fs generalizing check with
  | nil => rfl
  | cons f fs ih =>
    have hf : f.Name ≠ "circleci" := h f (List.mem_cons_self f fs)
    simp only [homebrewScan, if_neg hf]
    exact ih check (fun g hg => h g (List.mem_cons_of_mem f hg))

/-!
Claim theorems.
-/

/-- C1 (counterexample): `ParseHomebrewVersion` does not rewrite only the
first underscore: on `1.2.3_4_5` the source (budget-10 replacement)
succeeds with pre-release tag `4-5`, while rewriting only the first
underscore would leave `1.2.3-4_5`, which fails to parse — so the two
differ. -/
theorem c1_first_underscore_only_counterexample :
    ParseHomebrewVersion "1.2.3_4_5" ≠ specParseHomebrewVersion "1.2.3_4_5" := by
  decide

/-- C1 (amended): `ParseHomebrewVersion` rewrites up to the first 10
underscores to hyphens before semantic-version parsing; it coincides with
rewriting only the first underscore exactly on inputs containing at most
one underscore (in particular on every well-formed single-revision
Homebrew version). -/
theorem c1_at_most_one_underscore_agrees (s : String) (h : s.data.count '_' ≤ 1) :
    ParseHomebrewVersion s = specParseHomebrewVersion s := by
  unfold ParseHomebrewVersion specParseHomebrewVersion
  rw [replaceUnderscores_of_count_le_one s.data 10 (by omega) h]

/-- C1 (witness): on the single-revision form `1.2.3_4` the source parser
and the first-underscore-only parser agree. -/
theorem c1_at_most_one_underscore_agrees_witness :
    ("1.2.3_4".data.count '_' ≤ 1) ∧
      ParseHomebrewVersion "1.2.3_4" = specParseHomebrewVersion "1.2.3_4" :=
  ⟨by decide, c1_at_most_one_underscore_agrees "1.2.3_4" (by decide)⟩

/-- C2 (code divergence): the unset (zero) current version renders as
`0.0.0`, never as the empty string — indeed no version renders as the
empty string — so the `opts.Current.String() == ""` guard of
`IsLatestVersion` can never fire, and with an unset current version and a
discovered latest release 1.0.0 the function returns false, not the true
the claim states. -/
theorem c2_unset_current_guard_dead :
    Semver.versionString zeroVersion = "0.0.0"
    ∧ (∀ v : Semver.Version, Semver.versionString v ≠ "")
    ∧ IsLatestVersion optsC2 = false := by
  refine ⟨by decide, versionString_ne_empty, by decide⟩

/-- C3 (counterexample): running the homebrew strategy on the document
from the source's own doc comment overwrites the caller-supplied current
version 1.0.0 with the parsed installed version 0.1.1248. -/
theorem c3_homebrew_mutates_current_counterexample :
    ((checkFromHomebrew (Except.ok docCircleci) checkC3).1).Current ≠ checkC3.Current := by
  decide

/-- C3 (amended): the current version is set once at check start and the
source/release strategy never mutates it, whatever the updater
construction and detection outcomes; the homebrew strategy, however,
overwrites it with the parsed installed version of a matching circleci
formula that reports one. -/
theorem c3_current_mutation_profile :
    (∀ (nerr : Option String) (det : DetectOutcome) (check : Options),
        ((checkFromSource nerr det check).1).Current = check.Current)
    ∧ (∀ (check : Options) (iv cv : String) (p : Bool) (pv : String)
        (v lv : Semver.Version),
        ParseHomebrewVersion iv = Except.ok v →
        ParseHomebrewVersion cv = Except.ok lv →
        homebrewScan check
            [{ Name := "circleci", InstalledVersions := [iv], CurrentVersion := cv,
               Pinned := p, PinnedVersion := pv }] =
          ({ check with
              Current := v
              Found := true
              Latest := some { Version := lv, PublishedAt := "" } }, none)) := by
  constructor
  · intro nerr det check
    cases nerr with
    | none =>
      cases hdet : det.err with
      | none => simp [checkFromSource, latestRelease, hdet]
      | some e => simp [checkFromSource, latestRelease, hdet]
    | some e => rfl
  · intro check iv cv p pv v lv hiv hcv
    simp [homebrewScan, hiv, hcv]

/-- C3 (witness): instantiating the homebrew half on the document from the
source's doc comment. -/
theorem c3_current_mutation_profile_witness :
    homebrewScan checkC3
        [{ Name := "circleci", InstalledVersions := ["0.1.1248"], CurrentVersion := "0.1.3923",
           Pinned := false, PinnedVersion := "" }] =
      ({ checkC3 with
          Current := v1248
          Found := true
          Latest := some { Version := v3923, PublishedAt := "" } }, none) :=
  c3_current_mutation_profile.2 checkC3 "0.1.1248" "0.1.3923" false "" v1248 v3923
    (by decide) (by decide)

/-- C4: with a non-empty current version and a discovered latest release,
`IsLatestVersion` is true exactly when the latest release's version
compares semantically equal to the current version, and any strict
ordering in either direction yields false. -/
theorem c4_is_latest_iff_semantically_equal (opts : Options) (rel : Release)
    (hl : opts.Latest = some rel) (hne : Semver.versionString opts.Current ≠ "") :
    (IsLatestVersion opts = true ↔ Semver.compare rel.Version opts.Current = 0)
    ∧ (Semver.compare rel.Version opts.Current ≠ 0 → IsLatestVersion opts = false) := by
  constructor
  · simp [IsLatestVersion, hne, hl, Semver.Equals]
  · intro hc
    simp [IsLatestVersion, hne, hl, Semver.Equals, hc]

/-- C4 (witness): with current version 1.0.0 and latest release 2.0.0 the
instantiated equivalence holds (and the comparison being non-zero, the
function returns false). -/
theorem c4_is_latest_iff_semantically_equal_witness :
    (IsLatestVersion optsC4 = true ↔
        Semver.compare ({ Version := { Major := 2, Minor := 0, Patch := 0, Pre := [], Build := [] },
                          PublishedAt := "" } : Release).Version optsC4.Current = 0)
    ∧ (Semver.compare ({ Version := { Major := 2, Minor := 0, Patch := 0, Pre := [], Build := [] },
                         PublishedAt := "" } : Release).Version optsC4.Current ≠ 0 →
        IsLatestVersion optsC4 = false) :=
  c4_is_latest_iff_semantically_equal optsC4
    { Version := { Major := 2, Minor := 0, Patch := 0, Pre := [], Build := [] },
      PublishedAt := "" }
    rfl (by decide)

/-- C5: `ShouldCheckForUpdates` is true exactly when the elapsed
wall-clock time since the last check is at least the 28-hour threshold;
in particular exactly 28 elapsed hours yields true, 27 hours yields false
and 29 hours yields true. -/
theorem c5_should_check_threshold :
    (∀ nowNs lastNs : Int,
        ShouldCheckForUpdates nowNs lastNs = true ↔ nowNs - lastNs ≥ 28 * 3600000000000)
    ∧ ShouldCheckForUpdates (28 * 3600000000000) 0 = true
    ∧ ShouldCheckForUpdates (27 * 3600000000000) 0 = false
    ∧ ShouldCheckForUpdates (29 * 3600000000000) 0 = true := by
  have main : ∀ nowNs lastNs : Int,
      ShouldCheckForUpdates nowNs lastNs = true ↔ nowNs - lastNs ≥ 28 * 3600000000000 := by
    intro nowNs lastNs
    simp only [ShouldCheckForUpdates, durationHours, hoursBeforeCheck, decide_eq_true_eq,
      ge_iff_le]
    rw [le_div_iff₀ (by norm_num : (0 : ℚ) < 3600000000000)]
    constructor
    · intro h
      exact_mod_cast h
    · intro h
      exact_mod_cast h
  refine ⟨main, (main _ _).mpr (by decide), ?_, (main _ _).mpr (by decide)⟩
  cases hb : ShouldCheckForUpdates (27 * 3600000000000) 0 with
  | false => rfl
  | true => exact absurd ((main _ _).mp hb) (by decide)

/-- C6: on the outdated document from the source's own doc comment (one
formula named circleci, installed 0.1.1248, upstream 0.1.3923), homebrew
discovery succeeds with no error, sets found, sets the current version to
the parse of 0.1.1248 and the latest release to the parse of 0.1.3923,
whatever the caller-supplied state was. -/
theorem c6_homebrew_discovery_success :
    Semver.Parse "0.1.1248" = Except.ok v1248
    ∧ Semver.Parse "0.1.3923" = Except.ok v3923
    ∧ ∀ check : Options,
        checkFromHomebrew (Except.ok docCircleci) check =
          ({ check with
              Current := v1248
              Found := true
              Latest := some { Version := v3923, PublishedAt := "" } }, none) :=
  ⟨by decide, by decide, fun check => rfl⟩

/-- C7: a homebrew outdated document with no formula named circleci leaves
the whole check state — current version, found flag, latest release —
unchanged and raises no error. -/
theorem c7_no_matching_entry (doc : HomebrewOutdated) (check : Options)
    (h : ∀ f ∈ doc.Formulae, f.Name ≠ "circleci") :
    checkFromHomebrew (Except.ok doc) check = (check, none) :=
  homebrewScan_no_match doc.Formulae check h

/-- C7 (witness): a one-formula document naming python only leaves a
concrete check state untouched. -/
theorem c7_no_matching_entry_witness :
    (∀ f ∈ docOther.Formulae, f.Name ≠ "circleci")
    ∧ checkFromHomebrew (Except.ok docOther) checkC7 = (checkC7, none) :=
  ⟨by decide, c7_no_matching_entry docOther checkC7 (by decide)⟩

/-- C8: when the caller-supplied current version fails semantic-version
parsing, `CheckForUpdates` returns a nil result together with the wrapped
parse error, and this outcome is independent of both discovery strategies
— neither runs. -/
theorem c8_invalid_current_aborts (src hb : Options → Options × Option String)
    (githubAPI slug current packageManager e : String)
    (h : Semver.Parse current = Except.error e) :
    CheckForUpdates src hb githubAPI slug current packageManager =
      (none, some ("Failed to parse current version: " ++ e)) := by
  simp [CheckForUpdates, h]

/-- C8 (witness): `not-a-version` has no major.minor.patch shape, so the
check aborts with the wrapped parse error for any strategies. -/
theorem c8_invalid_current_aborts_witness :
    CheckForUpdates inertStrategy inertStrategy "" "" "not-a-version" "release" =
      (none, some ("Failed to parse current version: " ++ "No Major.Minor.Patch elements found")) :=
  c8_invalid_current_aborts inertStrategy inertStrategy "" "" "not-a-version" "release"
    "No Major.Minor.Patch elements found" (by decide)

/-- C9: for a channel identifier outside release/source/homebrew and a
valid current version, `CheckForUpdates` returns a nil error and the
freshly built check state — found false, latest absent — untouched by
either discovery strategy. -/
theorem c9_unrecognized_channel_no_discovery
    (src hb : Options → Options × Option String)
    (githubAPI slug current packageManager : String) (v : Semver.Version)
    (hparse : Semver.Parse current = Except.ok v)
    (h1 : packageManager ≠ "release") (h2 : packageManager ≠ "source")
    (h3 : packageManager ≠ "homebrew") :
    CheckForUpdates src hb githubAPI slug current packageManager =
      (some { Current := v, Found := false, Latest := none,
              PackageManager := packageManager, githubAPI := githubAPI, slug := slug }, none) := by
  simp only [CheckForUpdates, hparse]

/-- C9 (witness): the unrecognized channel `snap` with current version
1.2.3 yields no error, found false and no latest release. -/
theorem c9_unrecognized_channel_no_discovery_witness :
    CheckForUpdates inertStrategy inertStrategy "api" "slug" "1.2.3" "snap" =
      (some { Current := { Major := 1, Minor := 2, Patch := 3, Pre := [], Build := [] },
              Found := false, Latest := none,
              PackageManager := "snap", githubAPI := "api", slug := "slug" }, none) :=
  c9_unrecognized_channel_no_discovery inertStrategy inertStrategy "api" "slug" "1.2.3" "snap"
    { Major := 1, Minor := 2, Patch := 3, Pre := [], Build := [] }
    (by decide) (by decide) (by decide) (by decide)

/-- C10: `DebugVersion` and `ReportVersion` produce their formatted
strings exactly when a latest release is present; when it is absent both
hit the nil dereference (modelled as `none`), so the precondition is both
sufficient and necessary for safety. -/
theorem c10_report_requires_latest (opts : Options) :
    ((DebugVersion opts).isSome = true ∧ (ReportVersion opts).isSome = true)
      ↔ opts.Latest.isSome = true := by
  cases h : opts.Latest <;> simp [DebugVersion, ReportVersion, h]
